import Mathlib

/-!
Verification of `VideoStitcher/rhombus_utils/velocity.py`.

The module holds three functions over 2D vectors: `get_velocity`,
`normalize_velocity` and `normalize_position`.  Numeric values are
embedded as rationals (`ℚ`): the Python code performs only subtraction,
division, negation and order comparisons, all of which are exact here.

The helper module `rhombus_types` (with `Vec2`, `validate_vec2` and
`HumanEvent`) is not part of the source tree; the definitions that need
it are modelled from the spec and marked as such.
-/

/-- Modelled from the spec: `Vec2` from the missing module
`rhombus_types.vector` — "a pair of numeric components (x, y)";
"construction from two scalars". -/
structure Vec2 where
  x : ℚ
  y : ℚ
deriving DecidableEq, Repr

/-- Componentwise negation of a vector, the meaning of the unary `-`
applied to a numpy 2-vector. -/
def Vec2.neg (v : Vec2) : Vec2 := Vec2.mk (-v.x) (-v.y)

/-- Modelled from the spec: `HumanEvent` from the missing module
`rhombus_types.human_event` — "a timestamped-position value with a
position vector and a millisecond timestamp".  Only the two fields read
by `get_velocity` are modelled. -/
structure HumanEvent where
  position : Vec2
  timestamp : ℚ
deriving DecidableEq, Repr

/-- `get_velocity(a, b)` from `velocity.py`: guard on
`b.timestamp - a.timestamp == 0` returning `Vec2(0, 0)`, otherwise
`np.subtract(b.position, a.position) / (b.timestamp - a.timestamp)`,
the numpy division acting componentwise. -/
def get_velocity (a b : HumanEvent) : Vec2 :=
  if b.timestamp - a.timestamp = 0 then Vec2.mk 0 0
  else
    Vec2.mk ((b.position.x - a.position.x) / (b.timestamp - a.timestamp))
            ((b.position.y - a.position.y) / (b.timestamp - a.timestamp))

/-- `normalize_velocity(a, threshold)` from `velocity.py`, the two
`if/elif` statements mutating the fresh `normalized_velocity = Vec2(0, 0)`
rendered as record updates. -/
def normalize_velocity (a threshold : Vec2) : Vec2 :=
  let nv := Vec2.mk 0 0
  let nv :=
    if a.x > threshold.x then { nv with x := 1 }
    else if a.x < -threshold.x then { nv with x := -1 }
    else nv
  let nv :=
    if a.y > threshold.y then { nv with y := 1 }
    else if a.y < -threshold.y then { nv with y := -1 }
    else nv
  nv

/-- `normalize_position(a, threshold)` from `velocity.py`, the two
`if/elif` statements mutating the fresh `normalized_position = Vec2(0, 0)`
rendered as record updates. -/
def normalize_position (a threshold : Vec2) : Vec2 :=
  let np := Vec2.mk 0 0
  let np :=
    if a.x > 1 - threshold.x then { np with x := 1 }
    else if a.x < threshold.x then { np with x := -1 }
    else np
  let np :=
    if a.y > 1 - threshold.y then { np with y := 1 }
    else if a.y < threshold.y then { np with y := -1 }
    else np
  np

/-- A raw Python argument element: a numeric scalar, or any non-numeric
value.  Used to model the shape/type validation path. -/
inductive PyVal where
  | num (q : ℚ)
  | other
deriving DecidableEq, Repr

/-- Whether a raw element is numeric. -/
def PyVal.isNum : PyVal → Bool
  | PyVal.num _ => true
  | PyVal.other => false

/-- Errors a call can surface: a descriptive validation error from
`validate_vec2`, or an implementation-defined runtime failure
(IndexError on a missing component, TypeError on comparing a
non-numeric component). -/
inductive PyError where
  | validationError
  | runtimeError
deriving DecidableEq, Repr

/-- Modelled from the spec: `validate_vec2` from the missing module
`rhombus_types.vector` — "both v and threshold must satisfy the Vec2
shape contract (exactly two numeric components) — fails with a
ValidationError-equivalent if not".  Returns `true` exactly on
well-shaped 2-component numeric vectors. -/
def validate_vec2 (v : List PyVal) : Bool :=
  v.length = 2 && v.all PyVal.isNum

/-- Reading component `i` of a raw vector as a number: a missing index
is an IndexError, a non-numeric element surfaces as a TypeError at the
comparison using it; both are implementation-defined runtime failures. -/
def getNum (v : List PyVal) (i : Nat) : Except PyError ℚ :=
  match v.get? i with
  | some (PyVal.num q) => Except.ok q
  | some PyVal.other => Except.error PyError.runtimeError
  | none => Except.error PyError.runtimeError

/-- `normalize_velocity` on raw arguments: the source first runs
`validate_vec2(a)` and `validate_vec2(threshold)`, then computes on the
two components. -/
def normalize_velocity_checked (a threshold : List PyVal) :
    Except PyError Vec2 :=
  if ¬ validate_vec2 a then Except.error PyError.validationError
  else if ¬ validate_vec2 threshold then Except.error PyError.validationError
  else
    match getNum a 0, getNum threshold 0, getNum a 1, getNum threshold 1 with
    | Except.ok a0, Except.ok t0, Except.ok a1, Except.ok t1 =>
        Except.ok (normalize_velocity (Vec2.mk a0 a1) (Vec2.mk t0 t1))
    | _, _, _, _ => Except.error PyError.runtimeError

/-- `normalize_position` on raw arguments: the source performs no
validation and goes straight to indexing `a[0]`, `threshold[0]`,
`a[1]`, `threshold[1]` and comparing. -/
def normalize_position_checked (a threshold : List PyVal) :
    Except PyError Vec2 :=
  match getNum a 0, getNum threshold 0, getNum a 1, getNum threshold 1 with
  | Except.ok a0, Except.ok t0, Except.ok a1, Except.ok t1 =>
      Except.ok (normalize_position (Vec2.mk a0 a1) (Vec2.mk t0 t1))
  | _, _, _, _ => Except.error PyError.runtimeError

/-- A heap of `Vec2` cells, modelling Python object identity for the
numpy vectors: `mem` maps an address to its current value and addresses
below `next` are the allocated objects (the arguments and, when the
default is used, the module-level shared default-threshold object). -/
structure Heap where
  mem : Nat → Vec2
  next : Nat

/-- Reading the vector stored at address `i`. -/
def Heap.read (h : Heap) (i : Nat) : Vec2 := h.mem i

/-- In-place update of the vector stored at address `i`, the meaning of
`v[k] = ...` on a numpy array. -/
def Heap.write (h : Heap) (i : Nat) (v : Vec2) : Heap :=
  Heap.mk (fun j => if j = i then v else h.mem j) h.next

/-- Allocation of a fresh vector object, the meaning of `Vec2(0, 0)`
creating a new numpy array: returns the new heap and the new address. -/
def Heap.alloc (h : Heap) (v : Vec2) : Heap × Nat :=
  (Heap.mk (fun j => if j = h.next then v else h.mem j) (h.next + 1), h.next)


/-- A concrete two-cell heap for witnesses: cell 0 holds the argument
vector `(5, -3)`, cell 1 holds the shared default threshold `(0, 0)`. -/
def testHeap : Heap :=
  Heap.mk (fun j => if j = 0 then Vec2.mk 5 (-3) else Vec2.mk 0 0) 2

/-- The first `if/elif` statement of `normalize_velocity` as one heap
step: reads the argument cells `aA`, `tA`, mutates only the result cell
`rA` (the `normalized_velocity[0] = ...` writes). -/
def nv_step_x (h : Heap) (aA tA rA : Nat) : Heap :=
  if (h.read aA).x > (h.read tA).x then
    h.write rA { h.read rA with x := 1 }
  else if (h.read aA).x < -(h.read tA).x then
    h.write rA { h.read rA with x := -1 }
  else h

/-- The second `if/elif` statement of `normalize_velocity` as one heap
step (the `normalized_velocity[1] = ...` writes). -/
def nv_step_y (h : Heap) (aA tA rA : Nat) : Heap :=
  if (h.read aA).y > (h.read tA).y then
    h.write rA { h.read rA with y := 1 }
  else if (h.read aA).y < -(h.read tA).y then
    h.write rA { h.read rA with y := -1 }
  else h

/-- The body of `normalize_velocity` on the heap: allocate the fresh
`normalized_velocity = Vec2(0, 0)`, run the two statements, return the
address of the result.  `aA`, `tA` are the addresses of the argument
and of the threshold (the shared default object when omitted). -/
def nv_body (h : Heap) (aA tA : Nat) : Heap × Nat :=
  let p := h.alloc (Vec2.mk 0 0)
  (nv_step_y (nv_step_x p.1 aA tA p.2) aA tA p.2, p.2)

/-- The first `if/elif` statement of `normalize_position` as one heap
step. -/
def np_step_x (h : Heap) (aA tA rA : Nat) : Heap :=
  if (h.read aA).x > 1 - (h.read tA).x then
    h.write rA { h.read rA with x := 1 }
  else if (h.read aA).x < (h.read tA).x then
    h.write rA { h.read rA with x := -1 }
  else h

/-- The second `if/elif` statement of `normalize_position` as one heap
step. -/
def np_step_y (h : Heap) (aA tA rA : Nat) : Heap :=
  if (h.read aA).y > 1 - (h.read tA).y then
    h.write rA { h.read rA with y := 1 }
  else if (h.read aA).y < (h.read tA).y then
    h.write rA { h.read rA with y := -1 }
  else h

/-- The body of `normalize_position` on the heap. -/
def np_body (h : Heap) (aA tA : Nat) : Heap × Nat :=
  let p := h.alloc (Vec2.mk 0 0)
  (np_step_y (np_step_x p.1 aA tA p.2) aA tA p.2, p.2)


/-- The x component of `normalize_velocity` is decided by the first
`if/elif` chain alone: the second chain only writes the y component. -/
theorem normalize_velocity_x (a threshold : Vec2) :
    (normalize_velocity a threshold).x =
      if a.x > threshold.x then 1
      else if a.x < -threshold.x then -1
      else 0 := by
  unfold normalize_velocity
  split_ifs <;> rfl

/-- The y component of `normalize_velocity` is decided by the second
`if/elif` chain alone. -/
theorem normalize_velocity_y (a threshold : Vec2) :
    (normalize_velocity a threshold).y =
      if a.y > threshold.y then 1
      else if a.y < -threshold.y then -1
      else 0 := by
  unfold normalize_velocity
  split_ifs <;> rfl

/-- The x component of `normalize_position` is decided by the first
`if/elif` chain alone. -/
theorem normalize_position_x (a threshold : Vec2) :
    (normalize_position a threshold).x =
      if a.x > 1 - threshold.x then 1
      else if a.x < threshold.x then -1
      else 0 := by
  unfold normalize_position
  split_ifs <;> rfl

/-- The y component of `normalize_position` is decided by the second
`if/elif` chain alone. -/
theorem normalize_position_y (a threshold : Vec2) :
    (normalize_position a threshold).y =
      if a.y > 1 - threshold.y then 1
      else if a.y < threshold.y then -1
      else 0 := by
  unfold normalize_position
  split_ifs <;> rfl

/-- C1: for timestamped positions `a`, `b` with
`b.timestamp - a.timestamp ≠ 0`, `get_velocity(a, b)` equals
`(b.position - a.position) / (b.timestamp - a.timestamp)`, computed
independently for the x and y axes. -/
theorem C1_get_velocity_quotient (a b : HumanEvent)
    (h : b.timestamp - a.timestamp ≠ 0) :
    (get_velocity a b).x =
        (b.position.x - a.position.x) / (b.timestamp - a.timestamp) ∧
    (get_velocity a b).y =
        (b.position.y - a.position.y) / (b.timestamp - a.timestamp) := by
  unfold get_velocity
  rw [if_neg h]
  exact ⟨rfl, rfl⟩

/-- Witness for C1 at concrete events with distinct timestamps. -/
theorem C1_get_velocity_quotient_witness :
    (get_velocity (HumanEvent.mk (Vec2.mk 1 2) 0)
        (HumanEvent.mk (Vec2.mk 5 0) 2)).x = (5 - 1) / (2 - 0) ∧
    (get_velocity (HumanEvent.mk (Vec2.mk 1 2) 0)
        (HumanEvent.mk (Vec2.mk 5 0) 2)).y = (0 - 2) / (2 - 0) :=
  C1_get_velocity_quotient
    (HumanEvent.mk (Vec2.mk 1 2) 0) (HumanEvent.mk (Vec2.mk 5 0) 2)
    (by norm_num)

/-- C2: for timestamped positions `a`, `b` with
`b.timestamp - a.timestamp = 0`, `get_velocity(a, b)` returns the zero
vector; the total function never divides by zero there. -/
theorem C2_get_velocity_equal_timestamps (a b : HumanEvent)
    (h : b.timestamp - a.timestamp = 0) :
    get_velocity a b = Vec2.mk 0 0 := by
  unfold get_velocity
  rw [if_pos h]

/-- Witness for C2 at concrete events with equal timestamps. -/
theorem C2_get_velocity_equal_timestamps_witness :
    get_velocity (HumanEvent.mk (Vec2.mk 1 2) 7)
        (HumanEvent.mk (Vec2.mk 5 0) 7) = Vec2.mk 0 0 :=
  C2_get_velocity_equal_timestamps
    (HumanEvent.mk (Vec2.mk 1 2) 7) (HumanEvent.mk (Vec2.mk 5 0) 7)
    (by norm_num)

/-- Counterexample to C3 as stated: with a negative threshold component
`t = -1`, `normalize_velocity((t,0), (t,0))` has x component `-1`, not
`0` — the per-axis formula holds, but the boundary instance quantified
over every `t` fails. -/
theorem C3_boundary_counterexample :
    (normalize_velocity (Vec2.mk (-1) 0) (Vec2.mk (-1) 0)).x ≠ 0 := by
  decide

/-- C3 (amended): each component of `normalize_velocity(v, t)` is `1` if
`c > t`, else `-1` if `c < -t`, else `0`; and for every nonneg `q`,
`normalize_velocity((q,0), (q,0))` has x component `0` (strict
comparisons). -/
theorem C3_normalize_velocity_policy (v t : Vec2) (q : ℚ) (hq : 0 ≤ q) :
    ((normalize_velocity v t).x =
        (if v.x > t.x then 1 else if v.x < -t.x then -1 else 0) ∧
     (normalize_velocity v t).y =
        (if v.y > t.y then 1 else if v.y < -t.y then -1 else 0)) ∧
    (normalize_velocity (Vec2.mk q 0) (Vec2.mk q 0)).x = 0 := by
  refine ⟨⟨normalize_velocity_x v t, normalize_velocity_y v t⟩, ?_⟩
  rw [normalize_velocity_x]
  simp only [Vec2.mk]
  rw [if_neg (lt_irrefl q), if_neg (by simpa using not_lt.mpr (neg_le_self hq))]

/-- Witness for C3 (amended) at concrete vectors and `q = 2`. -/
theorem C3_normalize_velocity_policy_witness :
    (((normalize_velocity (Vec2.mk 5 (-3)) (Vec2.mk 2 2)).x =
        (if (5 : ℚ) > 2 then 1 else if (5 : ℚ) < -2 then -1 else 0) ∧
      (normalize_velocity (Vec2.mk 5 (-3)) (Vec2.mk 2 2)).y =
        (if (-3 : ℚ) > 2 then 1 else if (-3 : ℚ) < -2 then -1 else 0)) ∧
     (normalize_velocity (Vec2.mk 2 0) (Vec2.mk 2 0)).x = 0) :=
  C3_normalize_velocity_policy (Vec2.mk 5 (-3)) (Vec2.mk 2 2) 2 (by norm_num)

/-- C4: each component of `normalize_position(p, t)` is `1` if
`c > 1 - t`, else `-1` if `c < t`, else `0`, per axis. -/
theorem C4_normalize_position_policy (p t : Vec2) :
    (normalize_position p t).x =
        (if p.x > 1 - t.x then 1 else if p.x < t.x then -1 else 0) ∧
    (normalize_position p t).y =
        (if p.y > 1 - t.y then 1 else if p.y < t.y then -1 else 0) :=
  ⟨normalize_position_x p t, normalize_position_y p t⟩

/-- C5: with a componentwise nonnegative threshold, every component of
`normalize_velocity` and of `normalize_position` lies in {-1, 0, 1}. -/
theorem C5_components_ternary (v p t : Vec2)
    (ht : 0 ≤ t.x ∧ 0 ≤ t.y) :
    ((normalize_velocity v t).x = -1 ∨ (normalize_velocity v t).x = 0 ∨
        (normalize_velocity v t).x = 1) ∧
    ((normalize_velocity v t).y = -1 ∨ (normalize_velocity v t).y = 0 ∨
        (normalize_velocity v t).y = 1) ∧
    ((normalize_position p t).x = -1 ∨ (normalize_position p t).x = 0 ∨
        (normalize_position p t).x = 1) ∧
    ((normalize_position p t).y = -1 ∨ (normalize_position p t).y = 0 ∨
        (normalize_position p t).y = 1) := by
  rw [normalize_velocity_x, normalize_velocity_y,
      normalize_position_x, normalize_position_y]
  refine ⟨?_, ?_, ?_, ?_⟩ <;> split_ifs <;> simp

/-- Witness for C5 at concrete vectors and threshold `(1, 2)`. -/
theorem C5_components_ternary_witness :
    ((normalize_velocity (Vec2.mk 5 (-3)) (Vec2.mk 1 2)).x = -1 ∨
        (normalize_velocity (Vec2.mk 5 (-3)) (Vec2.mk 1 2)).x = 0 ∨
        (normalize_velocity (Vec2.mk 5 (-3)) (Vec2.mk 1 2)).x = 1) ∧
    ((normalize_velocity (Vec2.mk 5 (-3)) (Vec2.mk 1 2)).y = -1 ∨
        (normalize_velocity (Vec2.mk 5 (-3)) (Vec2.mk 1 2)).y = 0 ∨
        (normalize_velocity (Vec2.mk 5 (-3)) (Vec2.mk 1 2)).y = 1) ∧
    ((normalize_position (Vec2.mk 0 1) (Vec2.mk 1 2)).x = -1 ∨
        (normalize_position (Vec2.mk 0 1) (Vec2.mk 1 2)).x = 0 ∨
        (normalize_position (Vec2.mk 0 1) (Vec2.mk 1 2)).x = 1) ∧
    ((normalize_position (Vec2.mk 0 1) (Vec2.mk 1 2)).y = -1 ∨
        (normalize_position (Vec2.mk 0 1) (Vec2.mk 1 2)).y = 0 ∨
        (normalize_position (Vec2.mk 0 1) (Vec2.mk 1 2)).y = 1) :=
  C5_components_ternary (Vec2.mk 5 (-3)) (Vec2.mk 0 1) (Vec2.mk 1 2)
    ⟨by norm_num, by norm_num⟩

/-- Counterexample to C6 as stated: at `a = ((0,0), 0)`,
`b = ((4,0), 2)`, `get_velocity(a, b) = (2, 0)` while
`-get_velocity(b, a) = (-2, 0)` — swapping the events flips both
numerator and denominator, so the quotient does not change sign. -/
theorem C6_antisymm_counterexample :
    get_velocity (HumanEvent.mk (Vec2.mk 0 0) 0) (HumanEvent.mk (Vec2.mk 4 0) 2) ≠
      Vec2.neg (get_velocity (HumanEvent.mk (Vec2.mk 4 0) 2)
        (HumanEvent.mk (Vec2.mk 0 0) 0)) := by
  unfold get_velocity Vec2.neg
  norm_num [Vec2.mk.injEq]

/-- C6 (amended): with distinct timestamps, swapping the two events
leaves the velocity unchanged: `get_velocity(a, b) = get_velocity(b, a)`
— the function is symmetric, not antisymmetric. -/
theorem C6_get_velocity_symm (a b : HumanEvent)
    (h : a.timestamp ≠ b.timestamp) :
    get_velocity a b = get_velocity b a := by
  have hba : b.timestamp - a.timestamp ≠ 0 := sub_ne_zero.mpr (Ne.symm h)
  have hab : a.timestamp - b.timestamp ≠ 0 := sub_ne_zero.mpr h
  unfold get_velocity
  rw [if_neg hba, if_neg hab]
  have key : ∀ p q r s : ℚ, (p - q) / (r - s) = (q - p) / (s - r) := by
    intro p q r s
    rw [← neg_sub q p, ← neg_sub s r, neg_div_neg_eq]
  simp only [Vec2.mk.injEq]
  exact ⟨key _ _ _ _, key _ _ _ _⟩

/-- Witness for C6 (amended) at concrete events with distinct
timestamps. -/
theorem C6_get_velocity_symm_witness :
    get_velocity (HumanEvent.mk (Vec2.mk 1 2) 0) (HumanEvent.mk (Vec2.mk 5 0) 2) =
      get_velocity (HumanEvent.mk (Vec2.mk 5 0) 2)
        (HumanEvent.mk (Vec2.mk 1 2) 0) :=
  C6_get_velocity_symm
    (HumanEvent.mk (Vec2.mk 1 2) 0) (HumanEvent.mk (Vec2.mk 5 0) 2)
    (by norm_num)

/-- C9: with a strictly negative x threshold, the x component of
`normalize_velocity` is never `0`: it is `1` exactly when `c > t` (the
first branch wins even when `c < -t` also holds), and `-1` otherwise. -/
theorem C9_negative_threshold_never_zero (v t : Vec2) (ht : t.x < 0) :
    (normalize_velocity v t).x = (if v.x > t.x then 1 else -1) ∧
    (normalize_velocity v t).x ≠ 0 := by
  rw [normalize_velocity_x]
  rcases lt_or_le t.x v.x with hgt | hle
  · rw [if_pos hgt, if_pos hgt]
    exact ⟨rfl, one_ne_zero⟩
  · have hneg : v.x < -t.x := lt_of_le_of_lt hle (by linarith)
    rw [if_neg (not_lt.mpr hle), if_neg (not_lt.mpr hle), if_pos hneg]
    exact ⟨rfl, by norm_num⟩

/-- Witness for C9 at `v = (-5, 0)`, `t = (-1, 0)`: both branch guards
hold, the first wins. -/
theorem C9_negative_threshold_never_zero_witness :
    (normalize_velocity (Vec2.mk (-5) 0) (Vec2.mk (-1) 0)).x =
        (if (-5 : ℚ) > -1 then 1 else -1) ∧
    (normalize_velocity (Vec2.mk (-5) 0) (Vec2.mk (-1) 0)).x ≠ 0 :=
  C9_negative_threshold_never_zero (Vec2.mk (-5) 0) (Vec2.mk (-1) 0)
    (by norm_num)

/-- C10: in `normalize_position` the far-edge branch runs first: when
`t.x > 1/2` and both `c > 1 - t.x` and `c < t.x` hold, the x component
is `1`, never `-1` (and symmetrically for y). -/
theorem C10_far_edge_precedence (p t : Vec2) (ht : t.x > 1 / 2)
    (h1 : p.x > 1 - t.x) (h2 : p.x < t.x) :
    (normalize_position p t).x = 1 := by
  rw [normalize_position_x, if_pos h1]

/-- Witness for C10 at `p = (0.5, 0)`, `t = (0.8, 0)`: both guards hold
and the output is `1`. -/
theorem C10_far_edge_precedence_witness :
    (1 : ℚ) / 2 < 8 / 10 ∧
    (normalize_position (Vec2.mk (1 / 2) 0) (Vec2.mk (8 / 10) 0)).x = 1 :=
  ⟨by norm_num,
   C10_far_edge_precedence (Vec2.mk (1 / 2) 0) (Vec2.mk (8 / 10) 0)
     (by norm_num) (by norm_num) (by norm_num)⟩

/-- Counterexample to C7 as stated: the malformed 3-component numeric
vector `[1, 2, 3]` fails `validate_vec2`, yet `normalize_position`
succeeds on it (the extra component is ignored), so a malformed input
does not always propagate as a runtime failure. -/
theorem C7_malformed_position_counterexample :
    validate_vec2 [PyVal.num 1, PyVal.num 2, PyVal.num 3] = false ∧
    normalize_position_checked [PyVal.num 1, PyVal.num 2, PyVal.num 3]
        [PyVal.num 0, PyVal.num 0] = Except.ok (Vec2.mk 0 1) := by
  constructor
  · rfl
  · have h0 : getNum [PyVal.num 1, PyVal.num 2, PyVal.num 3] 0 = Except.ok 1 := rfl
    have h1 : getNum [PyVal.num 0, PyVal.num 0] 0 = Except.ok 0 := rfl
    have h2 : getNum [PyVal.num 1, PyVal.num 2, PyVal.num 3] 1 = Except.ok 2 := rfl
    have h3 : getNum [PyVal.num 0, PyVal.num 0] 1 = Except.ok 0 := rfl
    unfold normalize_position_checked
    rw [h0, h1, h2, h3]
    show Except.ok (normalize_position (Vec2.mk 1 2) (Vec2.mk 0 0)) =
      Except.ok (Vec2.mk 0 1)
    have hval : normalize_position (Vec2.mk 1 2) (Vec2.mk 0 0) = Vec2.mk 0 1 := by
      unfold normalize_position
      norm_num
    rw [hval]

/-- C7 (amended): whenever either raw argument is malformed,
`normalize_velocity` fails fast with the descriptive validation error,
while `normalize_position` never reports a validation error — it either
succeeds or surfaces an implementation-defined runtime failure. -/
theorem C7_validation_asymmetry (a t : List PyVal)
    (h : ¬ validate_vec2 a ∨ ¬ validate_vec2 t) :
    normalize_velocity_checked a t = Except.error PyError.validationError ∧
    normalize_position_checked a t ≠ Except.error PyError.validationError := by
  constructor
  · unfold normalize_velocity_checked
    rcases h with h | h
    · rw [if_pos (by simpa using h)]
    · by_cases ha : validate_vec2 a
      · rw [if_neg (by simpa using ha), if_pos (by simpa using h)]
      · rw [if_pos (by simpa using ha)]
  · unfold normalize_position_checked
    cases h0 : getNum a 0 <;> cases h1 : getNum t 0 <;>
      cases h2 : getNum a 1 <;> cases h3 : getNum t 1 <;> simp

/-- Witness for C7 (amended) at a malformed 1-component first argument
and a well-formed threshold. -/
theorem C7_validation_asymmetry_witness :
    normalize_velocity_checked [PyVal.num 1] [PyVal.num 0, PyVal.num 0] =
        Except.error PyError.validationError ∧
    normalize_position_checked [PyVal.num 1] [PyVal.num 0, PyVal.num 0] ≠
        Except.error PyError.validationError :=
  C7_validation_asymmetry [PyVal.num 1] [PyVal.num 0, PyVal.num 0]
    (Or.inl (by decide))

/-- Reading a cell other than the one written is unchanged. -/
theorem Heap.read_write_self (h : Heap) (i : Nat) (v : Vec2) :
    (h.write i v).read i = v := by
  simp [Heap.read, Heap.write]

/-- Reading a cell other than the one written is unchanged. -/
theorem Heap.read_write_ne (h : Heap) (i j : Nat) (v : Vec2)
    (hj : j ≠ i) : (h.write i v).read j = h.read j := by
  simp [Heap.read, Heap.write, hj]

/-- Allocation stores the value in the fresh cell. -/
theorem Heap.read_alloc_self (h : Heap) (v : Vec2) :
    ((h.alloc v).1).read h.next = v := by
  simp [Heap.read, Heap.alloc]

/-- Allocation leaves every other cell unchanged. -/
theorem Heap.read_alloc_ne (h : Heap) (v : Vec2) (j : Nat)
    (hj : j ≠ h.next) : ((h.alloc v).1).read j = h.read j := by
  simp [Heap.read, Heap.alloc, hj]

/-- Allocation bumps the allocation bound by one. -/
theorem Heap.alloc_next (h : Heap) (v : Vec2) :
    ((h.alloc v).1).next = h.next + 1 := rfl

/-- The x statement of `normalize_velocity` writes only `rA`. -/
theorem nv_step_x_read_ne (h : Heap) (aA tA rA i : Nat) (hi : i ≠ rA) :
    (nv_step_x h aA tA rA).read i = h.read i := by
  unfold nv_step_x
  split_ifs <;> simp [Heap.read_write_ne _ _ _ _ hi]

/-- Value of the result cell after the x statement of
`normalize_velocity`. -/
theorem nv_step_x_read_self (h : Heap) (aA tA rA : Nat) :
    (nv_step_x h aA tA rA).read rA =
      (if (h.read aA).x > (h.read tA).x then { h.read rA with x := 1 }
       else if (h.read aA).x < -(h.read tA).x then { h.read rA with x := -1 }
       else h.read rA) := by
  unfold nv_step_x
  split_ifs <;> simp [Heap.read_write_self]

/-- The x statement allocates nothing. -/
theorem nv_step_x_next (h : Heap) (aA tA rA : Nat) :
    (nv_step_x h aA tA rA).next = h.next := by
  unfold nv_step_x
  split_ifs <;> rfl

/-- The y statement of `normalize_velocity` writes only `rA`. -/
theorem nv_step_y_read_ne (h : Heap) (aA tA rA i : Nat) (hi : i ≠ rA) :
    (nv_step_y h aA tA rA).read i = h.read i := by
  unfold nv_step_y
  split_ifs <;> simp [Heap.read_write_ne _ _ _ _ hi]

/-- Value of the result cell after the y statement of
`normalize_velocity`. -/
theorem nv_step_y_read_self (h : Heap) (aA tA rA : Nat) :
    (nv_step_y h aA tA rA).read rA =
      (if (h.read aA).y > (h.read tA).y then { h.read rA with y := 1 }
       else if (h.read aA).y < -(h.read tA).y then { h.read rA with y := -1 }
       else h.read rA) := by
  unfold nv_step_y
  split_ifs <;> simp [Heap.read_write_self]

/-- The y statement allocates nothing. -/
theorem nv_step_y_next (h : Heap) (aA tA rA : Nat) :
    (nv_step_y h aA tA rA).next = h.next := by
  unfold nv_step_y
  split_ifs <;> rfl

/-- The x statement of `normalize_position` writes only `rA`. -/
theorem np_step_x_read_ne (h : Heap) (aA tA rA i : Nat) (hi : i ≠ rA) :
    (np_step_x h aA tA rA).read i = h.read i := by
  unfold np_step_x
  split_ifs <;> simp [Heap.read_write_ne _ _ _ _ hi]

/-- Value of the result cell after the x statement of
`normalize_position`. -/
theorem np_step_x_read_self (h : Heap) (aA tA rA : Nat) :
    (np_step_x h aA tA rA).read rA =
      (if (h.read aA).x > 1 - (h.read tA).x then { h.read rA with x := 1 }
       else if (h.read aA).x < (h.read tA).x then { h.read rA with x := -1 }
       else h.read rA) := by
  unfold np_step_x
  split_ifs <;> simp [Heap.read_write_self]

/-- The x statement allocates nothing. -/
theorem np_step_x_next (h : Heap) (aA tA rA : Nat) :
    (np_step_x h aA tA rA).next = h.next := by
  unfold np_step_x
  split_ifs <;> rfl

/-- The y statement of `normalize_position` writes only `rA`. -/
theorem np_step_y_read_ne (h : Heap) (aA tA rA i : Nat) (hi : i ≠ rA) :
    (np_step_y h aA tA rA).read i = h.read i := by
  unfold np_step_y
  split_ifs <;> simp [Heap.read_write_ne _ _ _ _ hi]

/-- Value of the result cell after the y statement of
`normalize_position`. -/
theorem np_step_y_read_self (h : Heap) (aA tA rA : Nat) :
    (np_step_y h aA tA rA).read rA =
      (if (h.read aA).y > 1 - (h.read tA).y then { h.read rA with y := 1 }
       else if (h.read aA).y < (h.read tA).y then { h.read rA with y := -1 }
       else h.read rA) := by
  unfold np_step_y
  split_ifs <;> simp [Heap.read_write_self]

/-- The y statement allocates nothing. -/
theorem np_step_y_next (h : Heap) (aA tA rA : Nat) :
    (np_step_y h aA tA rA).next = h.next := by
  unfold np_step_y
  split_ifs <;> rfl

/-- A `normalize_velocity` call leaves every previously allocated cell
— argument, threshold, shared default, anything else — unchanged. -/
theorem nv_body_frame (h : Heap) (aA tA i : Nat) (hi : i ≠ h.next) :
    (nv_body h aA tA).1.read i = h.read i := by
  show (nv_step_y (nv_step_x (h.alloc (Vec2.mk 0 0)).1 aA tA h.next)
      aA tA h.next).read i = h.read i
  rw [nv_step_y_read_ne _ _ _ _ _ hi, nv_step_x_read_ne _ _ _ _ _ hi,
    Heap.read_alloc_ne _ _ _ hi]

/-- The result of a `normalize_velocity` call is the freshly allocated
cell. -/
theorem nv_body_addr (h : Heap) (aA tA : Nat) :
    (nv_body h aA tA).2 = h.next := rfl

/-- A `normalize_velocity` call allocates exactly one new cell. -/
theorem nv_body_next (h : Heap) (aA tA : Nat) :
    (nv_body h aA tA).1.next = h.next + 1 := by
  show (nv_step_y (nv_step_x (h.alloc (Vec2.mk 0 0)).1 aA tA h.next)
      aA tA h.next).next = h.next + 1
  rw [nv_step_y_next, nv_step_x_next, Heap.alloc_next]

/-- The freshly allocated result cell of a `normalize_velocity` call
holds the pure `normalize_velocity` of the argument values. -/
theorem nv_body_result (h : Heap) (aA tA : Nat)
    (ha : aA ≠ h.next) (ht : tA ≠ h.next) :
    (nv_body h aA tA).1.read (nv_body h aA tA).2 =
      normalize_velocity (h.read aA) (h.read tA) := by
  show (nv_step_y (nv_step_x (h.alloc (Vec2.mk 0 0)).1 aA tA h.next)
      aA tA h.next).read h.next = _
  rw [nv_step_y_read_self, nv_step_x_read_ne _ _ _ _ _ ha,
    nv_step_x_read_ne _ _ _ _ _ ht, nv_step_x_read_self,
    Heap.read_alloc_ne _ _ _ ha, Heap.read_alloc_ne _ _ _ ht,
    Heap.read_alloc_self]
  rfl

/-- A `normalize_position` call leaves every previously allocated cell
unchanged. -/
theorem np_body_frame (h : Heap) (aA tA i : Nat) (hi : i ≠ h.next) :
    (np_body h aA tA).1.read i = h.read i := by
  show (np_step_y (np_step_x (h.alloc (Vec2.mk 0 0)).1 aA tA h.next)
      aA tA h.next).read i = h.read i
  rw [np_step_y_read_ne _ _ _ _ _ hi, np_step_x_read_ne _ _ _ _ _ hi,
    Heap.read_alloc_ne _ _ _ hi]

/-- The result of a `normalize_position` call is the freshly allocated
cell. -/
theorem np_body_addr (h : Heap) (aA tA : Nat) :
    (np_body h aA tA).2 = h.next := rfl

/-- A `normalize_position` call allocates exactly one new cell. -/
theorem np_body_next (h : Heap) (aA tA : Nat) :
    (np_body h aA tA).1.next = h.next + 1 := by
  show (np_step_y (np_step_x (h.alloc (Vec2.mk 0 0)).1 aA tA h.next)
      aA tA h.next).next = h.next + 1
  rw [np_step_y_next, np_step_x_next, Heap.alloc_next]

/-- The freshly allocated result cell of a `normalize_position` call
holds the pure `normalize_position` of the argument values. -/
theorem np_body_result (h : Heap) (aA tA : Nat)
    (ha : aA ≠ h.next) (ht : tA ≠ h.next) :
    (np_body h aA tA).1.read (np_body h aA tA).2 =
      normalize_position (h.read aA) (h.read tA) := by
  show (np_step_y (np_step_x (h.alloc (Vec2.mk 0 0)).1 aA tA h.next)
      aA tA h.next).read h.next = _
  rw [np_step_y_read_self, np_step_x_read_ne _ _ _ _ _ ha,
    np_step_x_read_ne _ _ _ _ _ ht, np_step_x_read_self,
    Heap.read_alloc_ne _ _ _ ha, Heap.read_alloc_ne _ _ _ ht,
    Heap.read_alloc_self]
  rfl

/-- C8: no call to `normalize_velocity` or `normalize_position` mutates
its input cell, its threshold cell or any other allocated cell
(including the shared default-threshold object); the result is a newly
allocated vector holding the pure function of the argument values; a
call whose threshold cell is the shared default object holding `(0, 0)`
returns exactly the pure result at a zero threshold, the default cell
still holds `(0, 0)` afterwards, and a second default call on the
resulting heap returns the same pure result — no state leaks between
successive calls. -/
theorem C8_no_mutation_default_pure (h : Heap) (aA tA dA i : Nat)
    (ha : aA < h.next) (ht : tA < h.next) (hd : dA < h.next)
    (hi : i < h.next) (hd0 : h.read dA = Vec2.mk 0 0) :
    (nv_body h aA tA).1.read i = h.read i ∧
    (np_body h aA tA).1.read i = h.read i ∧
    (nv_body h aA tA).2 = h.next ∧
    (np_body h aA tA).2 = h.next ∧
    (nv_body h aA tA).1.read (nv_body h aA tA).2 =
      normalize_velocity (h.read aA) (h.read tA) ∧
    (np_body h aA tA).1.read (np_body h aA tA).2 =
      normalize_position (h.read aA) (h.read tA) ∧
    (nv_body h aA dA).1.read (nv_body h aA dA).2 =
      normalize_velocity (h.read aA) (Vec2.mk 0 0) ∧
    (np_body h aA dA).1.read (np_body h aA dA).2 =
      normalize_position (h.read aA) (Vec2.mk 0 0) ∧
    (nv_body h aA dA).1.read dA = Vec2.mk 0 0 ∧
    (nv_body ((nv_body h aA dA).1) aA dA).1.read
        ((nv_body ((nv_body h aA dA).1) aA dA).2) =
      normalize_velocity (h.read aA) (Vec2.mk 0 0) := by
  have ha' : aA ≠ h.next := Nat.ne_of_lt ha
  have ht' : tA ≠ h.next := Nat.ne_of_lt ht
  have hd' : dA ≠ h.next := Nat.ne_of_lt hd
  have hi' : i ≠ h.next := Nat.ne_of_lt hi
  refine ⟨nv_body_frame _ _ _ _ hi', np_body_frame _ _ _ _ hi',
    nv_body_addr _ _ _, np_body_addr _ _ _,
    nv_body_result _ _ _ ha' ht', np_body_result _ _ _ ha' ht',
    ?_, ?_, ?_, ?_⟩
  · rw [nv_body_result _ _ _ ha' hd', hd0]
  · rw [np_body_result _ _ _ ha' hd', hd0]
  · rw [nv_body_frame _ _ _ _ hd', hd0]
  · have hnext : ((nv_body h aA dA).1).next = h.next + 1 :=
      nv_body_next _ _ _
    have ha2 : aA ≠ ((nv_body h aA dA).1).next := by
      rw [hnext]
      omega
    have hd2 : dA ≠ ((nv_body h aA dA).1).next := by
      rw [hnext]
      omega
    rw [nv_body_result _ _ _ ha2 hd2, nv_body_frame _ _ _ _ ha',
      nv_body_frame _ _ _ _ hd', hd0]

/-- Witness for C8 on the concrete two-cell heap, with the argument at
address 0 and the shared default threshold at address 1. -/
theorem C8_no_mutation_default_pure_witness :
    (nv_body testHeap 0 1).1.read 0 = testHeap.read 0 ∧
    (np_body testHeap 0 1).1.read 0 = testHeap.read 0 ∧
    (nv_body testHeap 0 1).2 = testHeap.next ∧
    (np_body testHeap 0 1).2 = testHeap.next ∧
    (nv_body testHeap 0 1).1.read (nv_body testHeap 0 1).2 =
      normalize_velocity (testHeap.read 0) (testHeap.read 1) ∧
    (np_body testHeap 0 1).1.read (np_body testHeap 0 1).2 =
      normalize_position (testHeap.read 0) (testHeap.read 1) ∧
    (nv_body testHeap 0 1).1.read (nv_body testHeap 0 1).2 =
      normalize_velocity (testHeap.read 0) (Vec2.mk 0 0) ∧
    (np_body testHeap 0 1).1.read (np_body testHeap 0 1).2 =
      normalize_position (testHeap.read 0) (Vec2.mk 0 0) ∧
    (nv_body testHeap 0 1).1.read 1 = Vec2.mk 0 0 ∧
    (nv_body ((nv_body testHeap 0 1).1) 0 1).1.read
        ((nv_body ((nv_body testHeap 0 1).1) 0 1).2) =
      normalize_velocity (testHeap.read 0) (Vec2.mk 0 0) :=
  C8_no_mutation_default_pure testHeap 0 1 1 0
    (by decide) (by decide) (by decide) (by decide) rfl
